/-
  Verification of the prepHub progress/gamification engine.

  Shallow embedding of the client-side core described in the spec:
  streak computation (`updateUserStreakAndBadges`), badge rule evaluation
  (`checkAllBadges`), goal tracking (`setUserGoal`, `getActiveGoal`),
  the quiz resume cache (`saveQuizProgress` / `handleResumeQuiz`),
  aptitude scoring (`calculateResult`) and the mock-interview orchestrator
  (`MockInterview.tsx`).

  Modelling conventions:
  * Calendar dates are modelled as day indices (`Int`), day 0 being the Unix
    epoch 1970-01-01.  Two `Date` values satisfy
    `a.toDateString() === b.toDateString()` iff they have the same day index,
    and JavaScript's "yesterday" computation `d.setDate(d.getDate() - 1)`
    maps index `n` to `n - 1`.  `Date.getDay()` (0 = Sunday .. 6 = Saturday)
    of day index `n` is `(n + 4) % 7` since 1970-01-01 was a Thursday.
  * Numeric scores are modelled with `ℚ`.
  * Firestore documents are modelled as Lean structures; a per-user
    collection ordered by `timestamp desc` is modelled as a list with the
    newest record first.
-/
import Mathlib

namespace PrepHub

/-! ## Data model (src/unnamed/part_001, types) -/

/-- `InterviewHistory.type` (src/unnamed/part_001): one of the seven session
kinds of the unified history schema. -/
inductive HistoryType where
  | aptitude
  | hr
  | technical
  | profile_review
  | group_discussion
  | mock
  | review_hub
deriving DecidableEq, Repr

/-- `scoreRating?: string | number` on a history record.  `checkAllBadges`
guards every numeric comparison with `typeof h.scoreRating === 'number'`. -/
inductive ScoreRating where
  | num (value : ℚ)
  | str (value : String)
deriving DecidableEq, Repr

/-- The fields of `dataReference` that the core logic reads
(`(h.dataReference as any).quizType / .topic / .questionsAnswered`);
`none` models an absent (`undefined`) field. -/
structure DataReference where
  quizType : Option String := none
  topic : Option String := none
  questionsAnswered : Option ℚ := none
deriving DecidableEq, Repr

/-- `InterviewHistory` (src/unnamed/part_001).  `timestamp` is the day index
of the record's server timestamp (`none` models a null timestamp). -/
structure InterviewHistory where
  type : HistoryType
  sessionId : String := ""
  timestamp : Option Int := none
  durationSeconds : Option ℚ := none
  scoreRating : Option ScoreRating := none
  summary : String := ""
  dataReference : DataReference := {}
deriving DecidableEq, Repr

/-- `UserProfile` (src/unnamed/part_001): `lastActivityDate` as a day index,
`none` modelling a null/absent date. -/
structure UserProfile where
  streak : Nat
  lastActivityDate : Option Int
deriving DecidableEq, Repr

/-! ## Streak tracker (src/unnamed/part_000, `updateUserStreakAndBadges`,
lines 122-147) -/

/-- `new Date(0)`: the fallback `profile.lastActivityDate || new Date(0)`. -/
def epochDay : Int := 0

/-- The streak-update portion of `updateUserStreakAndBadges`
(src/unnamed/part_000 lines 133-147).  Input `profile` is the stored user
profile (`none` when no profile document exists, in which case the code
uses `{ userId, streak: 0, lastActivityDate: null }`); `today` is the
current day index.  Returns the profile held in memory after the streak
block (which is also what is persisted whenever it changed). -/
def updateUserStreak (profile : Option UserProfile) (today : Int) : UserProfile :=
  let p := profile.getD { streak := 0, lastActivityDate := none }
  let lastActivity := p.lastActivityDate.getD epochDay
  if today = lastActivity then
    p
  else if lastActivity = today - 1 then
    { streak := p.streak + 1, lastActivityDate := some today }
  else
    { streak := 1, lastActivityDate := some today }

/-! ## Aptitude quiz scoring (src/components/AptitudePrep.tsx,
`calculateResult`, lines 294-319) -/

/-- `AptitudeQuestion` (src/unnamed/part_001). -/
structure AptitudeQuestion where
  question : String
  options : List String
  correctAnswer : String
  explanation : String
  subTopic : String
deriving DecidableEq, Repr

instance : Inhabited AptitudeQuestion :=
  ⟨{ question := "", options := [], correctAnswer := "", explanation := "", subTopic := "" }⟩

/-- `questions.forEach((q, index) => { if (q.correctAnswer === finalAnswers[index]) correct++ })`:
the count of positions whose recorded answer is exactly the question's
`correctAnswer` (a missing or null answer never matches a string). -/
def countCorrect : List AptitudeQuestion → List (Option String) → Nat
  | [], _ => 0
  | _ :: qs, [] => countCorrect qs []
  | q :: qs, a :: as => (if a = some q.correctAnswer then 1 else 0) + countCorrect qs as

/-- The fields of `AptitudeQuizResult` (src/unnamed/part_001) that
`calculateResult` computes. -/
structure AptitudeQuizResult where
  score : ℚ
  total : Nat
  correctAnswers : Nat
  incorrectAnswers : Nat
  topic : String
  difficulty : String
  quizType : String
  userAnswers : List (Option String)
  timePerQuestion : List ℚ
deriving DecidableEq, Repr

/-- `calculateResult` (src/components/AptitudePrep.tsx lines 294-319),
restricted to the pure construction of the quiz result record. -/
def calculateResult (questions : List AptitudeQuestion) (finalAnswers : List (Option String))
    (finalTimes : List ℚ) (quizTopic : String) (selectedDifficulty : String)
    (quizType : String) : AptitudeQuizResult :=
  let correct := countCorrect questions finalAnswers
  { score := (correct : ℚ) / questions.length * 100
    total := questions.length
    correctAnswers := correct
    incorrectAnswers := questions.length - correct
    topic := quizTopic
    difficulty := selectedDifficulty
    quizType := quizType
    userAnswers := finalAnswers
    timePerQuestion := finalTimes }

/-! ## Badge rule evaluator (src/unnamed/part_000, `checkAllBadges`,
lines 62-109) -/

/-- `new Date().getDay()` for day index `n` (0 = Sunday .. 6 = Saturday);
day 0 (1970-01-01) was a Thursday. -/
def getDay (day : Int) : Int := (day + 4) % 7

/-- One conditional `earnedBadgeIds.add(id)` call: contributes `id` exactly
when its rule predicate holds. -/
def badgeIf (c : Prop) [Decidable c] (id : String) : List String :=
  if c then [id] else []

/-- `typeof h.scoreRating === 'number' && h.scoreRating === x`. -/
def scoreEq (r : Option ScoreRating) (x : ℚ) : Bool :=
  match r with
  | some (.num v) => v == x
  | _ => false

/-- `typeof h.scoreRating === 'number' && h.scoreRating > x`. -/
def scoreGt (r : Option ScoreRating) (x : ℚ) : Bool :=
  match r with
  | some (.num v) => x < v
  | _ => false

/-- `(h.dataReference as any).questionsAnswered >= n` (an absent field
compares as `NaN >= n`, i.e. false). -/
def answeredAtLeast (d : DataReference) (n : ℚ) : Bool :=
  match d.questionsAnswered with
  | some q => n ≤ q
  | none => false

/-- `checkAllBadges` (src/unnamed/part_000 lines 62-109): pure map from
(full history list newest-first, current streak, revision-question count)
to the list of earned badge ids, with `today` the evaluation day index.
The JS `Set` is built by the conditional adds in source order with
pairwise-distinct ids, so the result list is the concatenation of the
conditional singletons in that order. -/
def checkAllBadges (history : List InterviewHistory) (streak : Nat)
    (revisionCount : Nat) (today : Int) : List String :=
  let aptitudeHistory := history.filter (fun item => item.type == HistoryType.aptitude)
  let diagnosticTests := aptitudeHistory.filter
    (fun h => h.dataReference.quizType == some "Diagnostic")
  -- Streak
  badgeIf (7 ≤ streak) "streak-7" ++
  badgeIf (30 ≤ streak) "streak-30" ++
  badgeIf (0 < history.length ∧ (getDay today = 0 ∨ getDay today = 6) ∧
    history.head?.bind InterviewHistory.timestamp = some today) "weekend-warrior" ++
  -- Aptitude General
  badgeIf (10 ≤ aptitudeHistory.length) "apti-10" ++
  badgeIf (50 ≤ aptitudeHistory.length) "apti-50" ++
  badgeIf (aptitudeHistory.any (fun h =>
    scoreEq h.scoreRating 100 && answeredAtLeast h.dataReference 10) = true) "apti-perfect" ++
  -- Aptitude Specific Topics
  badgeIf (aptitudeHistory.any (fun h =>
    h.dataReference.topic == some "Quantitative Aptitude" && scoreGt h.scoreRating 90) = true)
    "quant-master" ++
  badgeIf (aptitudeHistory.any (fun h =>
    h.dataReference.topic == some "Logical Reasoning" && scoreGt h.scoreRating 90) = true)
    "logical-master" ++
  badgeIf (aptitudeHistory.any (fun h =>
    h.dataReference.topic == some "Verbal Ability" && scoreGt h.scoreRating 90) = true)
    "verbal-master" ++
  badgeIf (aptitudeHistory.any (fun h =>
    h.dataReference.topic == some "Data Interpretation" && scoreGt h.scoreRating 90) = true)
    "di-detective" ++
  -- Diagnostic
  badgeIf (0 < diagnosticTests.length) "diagnostic-complete" ++
  badgeIf (diagnosticTests.any (fun h => scoreGt h.scoreRating 75) = true)
    "diagnostic-high-potential" ++
  -- Module Completion
  badgeIf (5 ≤ (history.filter (fun item => item.type == HistoryType.technical)).length)
    "tech-5" ++
  badgeIf (5 ≤ (history.filter (fun item => item.type == HistoryType.hr)).length) "hr-5" ++
  badgeIf (5 ≤ (history.filter (fun item => item.type == HistoryType.group_discussion)).length)
    "gd-5" ++
  badgeIf (3 ≤ (history.filter (fun item => item.type == HistoryType.mock)).length)
    "mock-star" ++
  -- Feature Engagement
  badgeIf (history.any (fun item => item.type == HistoryType.profile_review) = true)
    "profile-auditor" ++
  badgeIf (10 ≤ revisionCount) "revisionist" ++
  badgeIf ((history.any (fun item => item.type == HistoryType.aptitude) &&
    history.any (fun item => item.type == HistoryType.technical) &&
    history.any (fun item => item.type == HistoryType.hr) &&
    history.any (fun item => item.type == HistoryType.group_discussion) &&
    history.any (fun item => item.type == HistoryType.profile_review)) = true) "well-rounded"

/-! ## Goal tracker (src/unnamed/part_000, `setUserGoal` lines 237-251,
`getActiveGoal` lines 219-235, `getAverageAccuracyForTopic` lines 200-215) -/

/-- `UserGoal` (src/unnamed/part_001), dates as day indices. -/
structure UserGoal where
  userId : String
  topic : String
  targetAccuracy : ℚ
  initialAccuracy : ℚ
  currentAccuracy : ℚ
  startDate : Int := 0
  endDate : Int := 0
  isActive : Bool
deriving DecidableEq, Repr

/-- A document of the top-level `userGoals` collection: document id plus
the stored `UserGoal` data. -/
structure StoredGoal where
  id : String
  goal : UserGoal
deriving DecidableEq, Repr

/-- `batch.update(d.ref, { isActive: false })` applied to the documents the
query `where userId == userId && isActive == true` matches, as a map over
the whole collection. -/
def deactivateIfActiveFor (userId : String) (d : StoredGoal) : StoredGoal :=
  if d.goal.userId == userId && d.goal.isActive then
    { d with goal := { d.goal with isActive := false } }
  else d

/-- `setUserGoal` (src/unnamed/part_000 lines 237-251).  The write batch
marks `isActive: false` on every goal matching
`where userId == goal.userId && isActive == true`, then `set`s the new goal
under a freshly generated document id (`doc(collection(db, 'userGoals'))`);
`set` overwrites an existing document with the same id and creates it
otherwise. -/
def setUserGoal (store : List StoredGoal) (newId : String) (goal : UserGoal) :
    List StoredGoal :=
  let deactivated := store.map (deactivateIfActiveFor goal.userId)
  if deactivated.any (fun d => d.id == newId) then
    deactivated.map (fun d => if d.id == newId then { id := newId, goal := goal } else d)
  else
    deactivated ++ [{ id := newId, goal := goal }]

/-- Numeric view of a score used by
`doc.data().scoreRating as number` in `getAverageAccuracyForTopic`; the
claims only use it on records hypothesised to carry numeric scores, a
missing or string score is mapped to 0. -/
def scoreAsNum : Option ScoreRating → ℚ
  | some (.num v) => v
  | _ => 0

/-- The query filter of `getAverageAccuracyForTopic`:
`where type == 'aptitude' && dataReference.topic == topic`. -/
def topicMatches (topic : String) (h : InterviewHistory) : Bool :=
  h.type == HistoryType.aptitude && h.dataReference.topic == some topic

/-- `getAverageAccuracyForTopic` (src/unnamed/part_000 lines 200-215):
over the user's history (newest first), keep the records with
`type == 'aptitude'` and `dataReference.topic == topic`, limit 5; `null`
when none exist, otherwise the arithmetic mean of their `scoreRating`s. -/
def getAverageAccuracyForTopic (history : List InterviewHistory) (topic : String) :
    Option ℚ :=
  if ((history.filter (topicMatches topic)).take 5).isEmpty then
    none
  else
    some ((((history.filter (topicMatches topic)).take 5).map
        (fun h => scoreAsNum h.scoreRating)).sum
      / (((history.filter (topicMatches topic)).take 5).map
          (fun h => scoreAsNum h.scoreRating)).length)

/-- The query `where userId == userId && isActive == true` on the
`userGoals` collection. -/
def activeGoalQuery (userId : String) (d : StoredGoal) : Bool :=
  d.goal.userId == userId && d.goal.isActive

/-- The accuracy-refresh tail of `getActiveGoal` (src/unnamed/part_000
lines 228-234) for the fetched goal document `d`: recompute
`currentAccuracy`, and when a value came back that differs from the stored
one, return the refreshed goal and merge-write `currentAccuracy` into that
goal's document. -/
def refreshActiveGoal (goals : List StoredGoal) (d : StoredGoal)
    (history : List InterviewHistory) : Option UserGoal × List StoredGoal :=
  match getAverageAccuracyForTopic history d.goal.topic with
  | none => (some d.goal, goals)
  | some currentAccuracy =>
    if currentAccuracy ≠ d.goal.currentAccuracy then
      (some { d.goal with currentAccuracy := currentAccuracy },
       goals.map (fun e =>
         if e.id == d.id then { e with goal := { e.goal with currentAccuracy := currentAccuracy } }
         else e))
    else
      (some d.goal, goals)

/-- `getActiveGoal` (src/unnamed/part_000 lines 219-235).  `goals` is the
`userGoals` collection, `history` the user's history newest-first.  Returns
the goal handed back to the caller together with the collection after the
conditional `setDoc(..., { currentAccuracy }, { merge: true })`. -/
def getActiveGoal (goals : List StoredGoal) (userId : String)
    (history : List InterviewHistory) : Option UserGoal × List StoredGoal :=
  match (goals.filter (activeGoalQuery userId)).head? with
  | none => (none, goals)
  | some d => refreshActiveGoal goals d history

/-! ## Quiz resume cache (src/components/AptitudePrep.tsx,
`saveQuizProgress` lines 114-140, `handleResumeQuiz` lines 223-239) -/

inductive QuizFlow where
  | loading
  | prompt
  | setup
  | active
  | results
deriving DecidableEq, Repr

/-- `SavedQuizState` (src/components/AptitudePrep.tsx lines 12-21). -/
structure SavedQuizState where
  questions : List AptitudeQuestion
  userAnswers : List (Option String)
  currentQuestionIndex : Nat
  timeLeft : Option Nat
  topic : String
  selectedDifficulty : String
  numQuestions : Nat
  timePerQuestion : List ℚ
deriving DecidableEq, Repr

/-- The `AptitudePrep` component state read and written by the resume
cache; `questionStartTime` is a millisecond clock reading. -/
structure QuizComponentState where
  flow : QuizFlow
  questions : List AptitudeQuestion
  userAnswers : List (Option String)
  currentQuestionIndex : Nat
  timeLeft : Option Nat
  quizTopic : String
  selectedDifficulty : String
  numQuestions : Nat
  timePerQuestion : List ℚ
  questionStartTime : ℚ
  savedQuizState : Option SavedQuizState
  isQuizActive : Bool
deriving DecidableEq, Repr

/-- `saveQuizProgress` (src/components/AptitudePrep.tsx lines 114-140):
guarded by `flow === 'active' && questions.length > 0`; folds the elapsed
time since `questionStartTime` into `timePerQuestion[currentQuestionIndex]`
and snapshots the full quiz state.  `now` is the `Date.now()` reading. -/
def saveQuizProgress (s : QuizComponentState) (now : ℚ) : Option SavedQuizState :=
  if s.flow == QuizFlow.active && !s.questions.isEmpty then
    let timeSpent := (now - s.questionStartTime) / 1000
    let newTimes := s.timePerQuestion.set s.currentQuestionIndex
      (s.timePerQuestion.getD s.currentQuestionIndex 0 + timeSpent)
    some { questions := s.questions
           userAnswers := s.userAnswers
           currentQuestionIndex := s.currentQuestionIndex
           timeLeft := s.timeLeft
           topic := s.quizTopic
           selectedDifficulty := s.selectedDifficulty
           numQuestions := s.numQuestions
           timePerQuestion := newTimes }
  else
    none

/-- `handleResumeQuiz` (src/components/AptitudePrep.tsx lines 223-239):
restores every snapshotted field, resets the per-question timing baseline
`questionStartTime` to `Date.now()` (`now`), re-enters the active flow and
clears the saved snapshot. -/
def handleResumeQuiz (s : QuizComponentState) (now : ℚ) : QuizComponentState :=
  match s.savedQuizState with
  | none => s
  | some saved =>
    { s with
      questions := saved.questions
      userAnswers := saved.userAnswers
      currentQuestionIndex := saved.currentQuestionIndex
      timeLeft := saved.timeLeft
      quizTopic := saved.topic
      selectedDifficulty := saved.selectedDifficulty
      numQuestions := saved.numQuestions
      timePerQuestion := saved.timePerQuestion
      questionStartTime := now
      flow := QuizFlow.active
      isQuizActive := true
      savedQuizState := none }

/-! ## AI response parsing (src/unnamed/part_002, geminiService) -/

/-- The outcome of reading a generative-AI response body: `.valid v` when
`JSON.parse(response.text.trim())` succeeds and the result has the expected
shape, `.invalid raw` when parsing throws or the shape check fails. -/
inductive AIResponse (α : Type) where
  | valid (value : α)
  | invalid (raw : String)
deriving DecidableEq, Repr

/-- The response-handling tail of `generateAptitudeQuestions`
(src/unnamed/part_002 lines 73-79): a parse failure is caught, logged and
re-thrown as a fresh `Error`. -/
def generateAptitudeQuestionsParse :
    AIResponse (List AptitudeQuestion) → Except String (List AptitudeQuestion)
  | .valid v => .ok v
  | .invalid _ =>
    .error "Failed to generate aptitude questions. The AI response was not valid JSON."

/-- The structured goal returned by `parseUserGoal`. -/
structure ParsedGoal where
  topic : String
  targetAccuracy : ℚ
  days : ℚ
deriving DecidableEq, Repr

/-- The response-handling tail of `parseUserGoal` (src/unnamed/part_002
lines 166-172): a parse failure is caught, logged and re-thrown. -/
def parseUserGoalParse : AIResponse ParsedGoal → Except String ParsedGoal
  | .valid v => .ok v
  | .invalid _ => .error "Failed to parse user goal. The AI response was not valid JSON."

/-- The response-handling tail of `getHrInterviewFeedback`
(src/unnamed/part_002 lines 587-598): on a parse or shape failure it
substitutes one placeholder feedback string per Q&A pair. -/
def getHrInterviewFeedbackParse (conversation : List (String × String)) :
    AIResponse (List String) → List String
  | .valid feedbacks => feedbacks
  | .invalid _ =>
    conversation.map (fun _ => "Sorry, I was unable to generate feedback for this answer.")

/-- The response-handling tail of `extractTopicFromGoal`
(src/unnamed/part_002 lines 124-131): a parse failure falls back to
`AptitudeTopic.QUANTITATIVE`. -/
def extractTopicFromGoalParse : AIResponse String → String
  | .valid topic => topic
  | .invalid _ => "Quantitative Aptitude"

/-! ## Mock interview orchestrator (src/components/MockInterview.tsx)

The component is modelled as a state machine.  UI callbacks, the countdown
interval and the settling of the background fetch promise are the events;
network results (question sets, per-answer feedback) enter as event
parameters, and the success/failure of the awaited feedback calls in
`proceedToNext` enters as a boolean outcome parameter. -/

inductive MockFlow where
  | setup
  | active
  | results
deriving DecidableEq, Repr

inductive MockRound where
  | Aptitude
  | Technical
  | HR
deriving DecidableEq, Repr

/-- `INTERVIEW_STRUCTURE` (src/components/MockInterview.tsx line 44). -/
def interviewStructure : List MockRound := [MockRound.Aptitude, MockRound.Technical, MockRound.HR]

/-- `ROUND_QUESTION_COUNT` (src/components/MockInterview.tsx lines 45-49). -/
def roundQuestionCount : MockRound → Nat
  | .Aptitude => 30
  | .Technical => 6
  | .HR => 6

/-- `INTERVIEW_STRUCTURE[i]`; only indices 0..2 are reachable. -/
def roundAt (i : Nat) : MockRound := interviewStructure.getD i MockRound.HR

/-- `MockInterviewRoundResult` (src/unnamed/part_001 lines 124-126). -/
inductive MockRoundResult where
  | aptitudeResult (score : ℚ) (total : Nat) (correctAnswers : Nat)
  | technicalResult (question answer feedback : String)
  | hrResult (question answer feedback : String)
deriving DecidableEq, Repr

def isAptitudeResult : MockRoundResult → Bool
  | .aptitudeResult _ _ _ => true
  | _ => false

def isHrResult : MockRoundResult → Bool
  | .hrResult _ _ _ => true
  | _ => false

/-- The settlement state of `backgroundFetchPromise.current`. -/
inductive FetchState where
  | pending
  | resolved
  | rejected
deriving DecidableEq, Repr

/-- The `MockInterview` component state relevant to the orchestration:
flow, the shared countdown, round/question cursors, accumulated per-round
results, the three question/answer sets, the finalisation output, the
inline error, the background-fetch promise state and whether a round
transition is currently suspended awaiting that promise. -/
structure MockState where
  flow : MockFlow
  timeLeft : Nat
  currentRoundIndex : Nat
  currentQuestionIndex : Nat
  roundResults : List MockRoundResult
  aptitudeQuestions : List AptitudeQuestion
  aptitudeAnswers : List (Option String)
  technicalQuestions : List String
  technicalAnswers : List String
  hrQuestions : List String
  hrAnswers : List String
  finalResults : List MockRoundResult
  error : Option String
  fetchState : FetchState
  pendingAdvance : Bool
deriving DecidableEq, Repr

/-- `startInterview` (src/components/MockInterview.tsx lines 207-265) after
the Aptitude questions arrive: answers filled with `null`, the other rounds
empty, the global timer set to `duration * 60`, and the background fetch
for Technical/HR started (promise pending). -/
def startInterview (duration : Nat) (aptiQuestions : List AptitudeQuestion) : MockState :=
  { flow := .active
    timeLeft := duration * 60
    currentRoundIndex := 0
    currentQuestionIndex := 0
    roundResults := []
    aptitudeQuestions := aptiQuestions
    aptitudeAnswers := List.replicate aptiQuestions.length none
    technicalQuestions := []
    technicalAnswers := []
    hrQuestions := []
    hrAnswers := []
    finalResults := []
    error := none
    fetchState := .pending
    pendingAdvance := false }

/-- `finishInterview` (src/components/MockInterview.tsx lines 95-137),
restricted to its state transition: enter the results flow and publish
`currentResults` as the finalised result list (which is also what is
submitted for the overall report and the history record). -/
def finishInterview (s : MockState) (currentResults : List MockRoundResult) : MockState :=
  { s with flow := .results, finalResults := currentResults }

/-- The error message `proceedToNext` surfaces on its catch path
(src/components/MockInterview.tsx line 181). -/
def roundName : MockRound → String
  | .Aptitude => "Aptitude"
  | .Technical => "Technical"
  | .HR => "HR"

def errMessage (rt : MockRound) : String :=
  "Failed to process the " ++ roundName rt ++ " round or load the next one. Please try again."

/-- The `newRoundResults` computed by `proceedToNext` when the current
round's last question is completed (src/components/MockInterview.tsx lines
150-164); `feedbacks` is the AI feedback list for Technical/HR rounds. -/
def scoreRound (s : MockState) (feedbacks : List String) : List MockRoundResult :=
  match roundAt s.currentRoundIndex with
  | .Aptitude =>
    let correct := countCorrect s.aptitudeQuestions s.aptitudeAnswers
    [.aptitudeResult ((correct : ℚ) / s.aptitudeQuestions.length * 100)
      s.aptitudeQuestions.length correct]
  | .Technical =>
    (List.range s.technicalQuestions.length).map (fun i =>
      .technicalResult (s.technicalQuestions.getD i "") (s.technicalAnswers.getD i "")
        (feedbacks.getD i ""))
  | .HR =>
    (List.range s.hrQuestions.length).map (fun i =>
      .hrResult (s.hrQuestions.getD i "") (s.hrAnswers.getD i "") (feedbacks.getD i ""))

/-- The events that drive the component. -/
inductive MockEvent where
  | answerAptitude (option : String)
  | answerTechnical (text : String)
  | answerHR (text : String)
  | proceedToNext (feedbacks : List String) (callsSucceed : Bool)
  | tick
  | timerExpire
  | fetchResolve (techQs hrQs : List String)
  | fetchReject
deriving DecidableEq, Repr

/-- `isNextDisabled` negated (src/components/MockInterview.tsx lines
326/343/358): an aptitude option selected, resp. a non-whitespace textarea
answer for the current question. -/
def currentAnswerPresent (s : MockState) : Bool :=
  match roundAt s.currentRoundIndex with
  | .Aptitude => (s.aptitudeAnswers.getD s.currentQuestionIndex none).isSome
  | .Technical => (s.technicalAnswers.getD s.currentQuestionIndex "").trim != ""
  | .HR => (s.hrAnswers.getD s.currentQuestionIndex "").trim != ""

/-- `renderActive` shows the question UI only when the current round's
question set is non-empty (src/components/MockInterview.tsx lines 324-374). -/
def roundQuestionsLoaded (s : MockState) : Bool :=
  match roundAt s.currentRoundIndex with
  | .Aptitude => !s.aptitudeQuestions.isEmpty
  | .Technical => !s.technicalQuestions.isEmpty
  | .HR => !s.hrQuestions.isEmpty

/-- When an event can fire: UI events need the active flow, no suspended
round transition (the loading overlay hides the footer and answers), a
loaded question set, and — for the Next button — a present answer; the
interval tick needs time on the clock; the timer-expiry effect fires at
`timeLeft === 0` in the active flow; the background promise settles once
from its pending state. -/
def eventEnabled : MockEvent → MockState → Bool
  | .answerAptitude opt, s =>
    s.flow == .active && !s.pendingAdvance && roundAt s.currentRoundIndex == .Aptitude &&
    !s.aptitudeQuestions.isEmpty &&
    (s.aptitudeQuestions.getD s.currentQuestionIndex default).options.contains opt
  | .answerTechnical _, s =>
    s.flow == .active && !s.pendingAdvance && roundAt s.currentRoundIndex == .Technical &&
    !s.technicalQuestions.isEmpty
  | .answerHR _, s =>
    s.flow == .active && !s.pendingAdvance && roundAt s.currentRoundIndex == .HR &&
    !s.hrQuestions.isEmpty
  | .proceedToNext _ _, s =>
    s.flow == .active && !s.pendingAdvance && roundQuestionsLoaded s && currentAnswerPresent s
  | .tick, s => s.flow == .active && s.timeLeft != 0
  | .timerExpire, s => s.flow == .active && s.timeLeft == 0
  | .fetchResolve _ _, s => s.fetchState == .pending
  | .fetchReject, s => s.fetchState == .pending

/-- The state transition of each event.

`proceedToNext` (src/components/MockInterview.tsx lines 140-189): before
the round's last question it only advances the question cursor.  On the
last question it scores the round (`callsSucceed = false` models a thrown
scoring/feedback call: the catch sets the error and nothing else).  On
success `setRoundResults(updatedResults)` always runs; advancing to the
next round then awaits `backgroundFetchPromise.current` — resolved: the
round index advances and the question cursor resets; pending: the
transition stays suspended on the promise; rejected: the awaited promise
throws into the same catch.  On the final round it calls
`finishInterview(updatedResults)`.

`fetchResolve`/`fetchReject` model the background fetch settling
(src/components/MockInterview.tsx lines 242-257): resolution installs the
Technical/HR question sets with empty answers and resumes a suspended
transition; rejection makes a suspended transition fail into the catch.

`timerExpire` is the timer effect (src/components/MockInterview.tsx lines
192-205): at `timeLeft === 0` in the active flow it calls
`finishInterview(roundResults)`. -/
def applyEvent : MockEvent → MockState → MockState
  | .answerAptitude opt, s =>
    { s with aptitudeAnswers := s.aptitudeAnswers.set s.currentQuestionIndex (some opt) }
  | .answerTechnical text, s =>
    { s with technicalAnswers := s.technicalAnswers.set s.currentQuestionIndex text }
  | .answerHR text, s =>
    { s with hrAnswers := s.hrAnswers.set s.currentQuestionIndex text }
  | .tick, s => { s with timeLeft := s.timeLeft - 1 }
  | .timerExpire, s => finishInterview s s.roundResults
  | .fetchResolve techQs hrQs, s =>
    let s' := { s with
      fetchState := FetchState.resolved
      technicalQuestions := techQs
      technicalAnswers := List.replicate techQs.length ""
      hrQuestions := hrQs
      hrAnswers := List.replicate hrQs.length "" }
    if s.pendingAdvance then
      { s' with
        currentRoundIndex := s.currentRoundIndex + 1
        currentQuestionIndex := 0
        pendingAdvance := false }
    else s'
  | .fetchReject, s =>
    let s' := { s with fetchState := FetchState.rejected }
    if s.pendingAdvance then
      { s' with
        error := some (errMessage (roundAt s.currentRoundIndex))
        pendingAdvance := false }
    else s'
  | .proceedToNext feedbacks callsSucceed, s =>
    if s.currentQuestionIndex == roundQuestionCount (roundAt s.currentRoundIndex) - 1 then
      if callsSucceed then
        let updated := s.roundResults ++ scoreRound s feedbacks
        if s.currentRoundIndex < interviewStructure.length - 1 then
          if s.fetchState == FetchState.resolved then
            { s with
              roundResults := updated
              currentRoundIndex := s.currentRoundIndex + 1
              currentQuestionIndex := 0 }
          else if s.fetchState == FetchState.pending then
            { s with roundResults := updated, pendingAdvance := true }
          else
            { s with
              roundResults := updated
              error := some (errMessage (roundAt s.currentRoundIndex)) }
        else
          finishInterview { s with roundResults := updated } updated
      else
        { s with error := some (errMessage (roundAt s.currentRoundIndex)) }
    else
      { s with currentQuestionIndex := s.currentQuestionIndex + 1 }

/-- States reachable from a started interview (durations offered by the
setup screen: 45, 60 or 90 minutes) under enabled events. -/
inductive MockReachable : MockState → Prop where
  | init (duration : Nat) (aptiQuestions : List AptitudeQuestion)
      (hd : duration ∈ [45, 60, 90]) :
      MockReachable (startInterview duration aptiQuestions)
  | step (s : MockState) (e : MockEvent) (hs : MockReachable s)
      (he : eventEnabled e s = true) :
      MockReachable (applyEvent e s)

/-- Run a list of events from a state. -/
def runEvents : List MockEvent → MockState → MockState
  | [], s => s
  | e :: es, s => runEvents es (applyEvent e s)

/-- Every event of the list is enabled when its turn comes. -/
def okEvents : List MockEvent → MockState → Bool
  | [], _ => true
  | e :: es, s => eventEnabled e s && okEvents es (applyEvent e s)

/-- The invariant carried by every reachable orchestrator state: the
background fetch has resolved by the time a round past Aptitude is current,
and while the Aptitude or Technical round is current the accumulated
`roundResults` hold Aptitude results only (Technical/HR results are only
appended by the transition that also leaves the round, and partial answers
are never appended at all). -/
def MockInv (s : MockState) : Prop :=
  (1 ≤ s.currentRoundIndex → s.fetchState = FetchState.resolved) ∧
  (s.currentRoundIndex ≤ 1 → ∀ r ∈ s.roundResults, isAptitudeResult r = true)

/-! ## Concrete scenario data -/

/-- A fixed aptitude question used in concrete runs. -/
def mockQ : AptitudeQuestion :=
  { question := "Q"
    options := ["A", "B", "C", "D"]
    correctAnswer := "A"
    explanation := "E"
    subTopic := "S" }

/-- A mock-interview run: answer and complete all 30 Aptitude questions,
let the background fetch resolve, advance into the Technical round, and
type one partial Technical answer. -/
def traceEvents : List MockEvent :=
  (List.replicate 29 [MockEvent.answerAptitude "A", MockEvent.proceedToNext [] true]).flatten ++
  [MockEvent.answerAptitude "A",
   MockEvent.fetchResolve (List.replicate 6 "TQ") (List.replicate 6 "HQ"),
   MockEvent.proceedToNext [] true,
   MockEvent.answerTechnical "My partial answer"]

/-- The state of that run: mid-Technical with one partial answer typed. -/
def traceState : MockState :=
  runEvents traceEvents (startInterview 45 (List.replicate 30 mockQ))

/-- The same state once the global countdown has reached zero. -/
def traceStateZero : MockState := { traceState with timeLeft := 0 }

/-- Records for badge-evaluator runs: an aptitude session on day 2
(a Saturday) and one on day 5 (a Tuesday). -/
def satRec : InterviewHistory := { type := .aptitude, timestamp := some 2 }

def tueRec : InterviewHistory := { type := .aptitude, timestamp := some 5 }

/-- Demo data for the quiz-resume round trip: an active 2-question quiz. -/
def demoQuizState : QuizComponentState :=
  { flow := QuizFlow.active
    questions := [mockQ, { mockQ with correctAnswer := "B" }]
    userAnswers := [some "A", none]
    currentQuestionIndex := 1
    timeLeft := some 100
    quizTopic := "Quantitative Aptitude"
    selectedDifficulty := "Medium"
    numQuestions := 2
    timePerQuestion := [7, 0]
    questionStartTime := 1000
    savedQuizState := none
    isQuizActive := true }

/-- The snapshot `saveQuizProgress demoQuizState 3000` produces. -/
def demoSnap : SavedQuizState :=
  { questions := demoQuizState.questions
    userAnswers := demoQuizState.userAnswers
    currentQuestionIndex := 1
    timeLeft := some 100
    topic := "Quantitative Aptitude"
    selectedDifficulty := "Medium"
    numQuestions := 2
    timePerQuestion := [7, 2] }

/-- A freshly remounted component holding the saved snapshot. -/
def demoFreshState : QuizComponentState :=
  { flow := QuizFlow.setup
    questions := []
    userAnswers := []
    currentQuestionIndex := 0
    timeLeft := none
    quizTopic := ""
    selectedDifficulty := "Medium"
    numQuestions := 5
    timePerQuestion := []
    questionStartTime := 0
    savedQuizState := some demoSnap
    isQuizActive := false }

/-- Demo data for `calculateResult`: a 5-question quiz with 3 exact
matches. -/
def demoQuestions : List AptitudeQuestion :=
  [{ mockQ with correctAnswer := "A" }, { mockQ with correctAnswer := "B" },
   { mockQ with correctAnswer := "C" }, { mockQ with correctAnswer := "D" },
   { mockQ with correctAnswer := "A" }]

def demoAnswers : List (Option String) :=
  [some "A", some "B", some "D", none, some "A"]

/-- Demo data for the goal tracker. -/
def demoGoal : UserGoal :=
  { userId := "u1"
    topic := "Quantitative Aptitude"
    targetAccuracy := 80
    initialAccuracy := 50
    currentAccuracy := 50
    isActive := true }

def demoGoalStore : List StoredGoal :=
  [{ id := "g1", goal := { demoGoal with targetAccuracy := 70 } },
   { id := "g2", goal := { demoGoal with userId := "u2" } }]

/-- Two aptitude history records on the goal's topic with scores 60 and 80,
newest first, plus one off-topic record. -/
def demoHistory : List InterviewHistory :=
  [{ type := .aptitude, timestamp := some 9, scoreRating := some (.num 80),
     dataReference := { topic := some "Quantitative Aptitude" } },
   { type := .hr, timestamp := some 8 },
   { type := .aptitude, timestamp := some 7, scoreRating := some (.num 60),
     dataReference := { topic := some "Quantitative Aptitude" } }]

/-- A mock-interview state sitting on the last Technical question, with the
background fetch long resolved. -/
def demoErrorState : MockState :=
  { flow := .active
    timeLeft := 500
    currentRoundIndex := 1
    currentQuestionIndex := 5
    roundResults := [.aptitudeResult 50 30 15]
    aptitudeQuestions := List.replicate 30 mockQ
    aptitudeAnswers := List.replicate 30 (some "A")
    technicalQuestions := List.replicate 6 "TQ"
    technicalAnswers := List.replicate 6 "answer"
    hrQuestions := List.replicate 6 "HQ"
    hrAnswers := List.replicate 6 ""
    finalResults := []
    error := none
    fetchState := .resolved
    pendingAdvance := false }

/-! ## Theorems -/

/-- C1: for every stored user profile, on a history-record save: if today
is the same calendar day as `lastActivityDate` the profile (in particular
the streak) is unchanged; if `lastActivityDate` is exactly one calendar day
earlier the streak is incremented by 1; otherwise the streak resets to 1;
and whenever a change occurs `lastActivityDate` becomes today. -/
theorem C1_streak_update (p : UserProfile) (d today : Int)
    (hp : p.lastActivityDate = some d) :
    (d = today → updateUserStreak (some p) today = p) ∧
    (d = today - 1 →
      (updateUserStreak (some p) today).streak = p.streak + 1 ∧
      (updateUserStreak (some p) today).lastActivityDate = some today) ∧
    (d ≠ today → d ≠ today - 1 →
      (updateUserStreak (some p) today).streak = 1 ∧
      (updateUserStreak (some p) today).lastActivityDate = some today) := by
  refine ⟨fun h => ?_, fun h => ?_, fun h1 h2 => ?_⟩
  · simp [updateUserStreak, hp, h]
  · have hne : today ≠ d := by omega
    have hne2 : today ≠ today - 1 := by omega
    simp [updateUserStreak, hp, hne, hne2, h]
  · have hne : today ≠ d := fun hc => h1 hc.symm
    have hne' : d ≠ today - 1 := h2
    simp [updateUserStreak, hp, hne, hne']

/-- C1 witness: a user with `lastActivityDate` = yesterday (day 20453) and
streak 4 completes a session on day 20454 and ends with streak 5. -/
theorem C1_streak_update_witness :
    (updateUserStreak (some { streak := 4, lastActivityDate := some 20453 }) 20454).streak = 5 ∧
    (updateUserStreak (some { streak := 4, lastActivityDate := some 20453 }) 20454).lastActivityDate
      = some 20454 :=
  (C1_streak_update { streak := 4, lastActivityDate := some 20453 } 20453 20454 rfl).2.1
    (by decide)

/-- C10: with no profile document, or a profile whose `lastActivityDate` is
absent, the first history-record save sets the streak to exactly 1 and
`lastActivityDate` to today: the missing date is read as the epoch, which
(for any day at least two days past the epoch) falls into the reset
branch. -/
theorem C10_missing_date_resets (p : UserProfile) (today : Int)
    (htoday : 2 ≤ today) (hnone : p.lastActivityDate = none) :
    updateUserStreak none today = { streak := 1, lastActivityDate := some today } ∧
    updateUserStreak (some p) today = { streak := 1, lastActivityDate := some today } := by
  have h0 : today ≠ epochDay := by simp [epochDay]; omega
  have h1 : epochDay ≠ today - 1 := by simp [epochDay]; omega
  constructor
  · simp [updateUserStreak, h0, h1]
  · simp [updateUserStreak, hnone, h0, h1]

/-- C10 witness at day 20454 and a stored profile with streak 7 but no
activity date. -/
theorem C10_missing_date_resets_witness :
    updateUserStreak none 20454 = { streak := 1, lastActivityDate := some 20454 } ∧
    updateUserStreak (some { streak := 7, lastActivityDate := none }) 20454
      = { streak := 1, lastActivityDate := some 20454 } :=
  C10_missing_date_resets { streak := 7, lastActivityDate := none } 20454 (by decide) rfl

/-- Out of answers, `countCorrect` finds no matches. -/
theorem countCorrect_nil (qs : List AptitudeQuestion) : countCorrect qs [] = 0 := by
  induction qs with
  | nil => simp [countCorrect]
  | cons q qs ih => simpa [countCorrect] using ih

/-- `countCorrect` counts exactly the positions whose answer matches the
question's `correctAnswer`. -/
theorem countCorrect_eq_countP (qs : List AptitudeQuestion) (ans : List (Option String)) :
    countCorrect qs ans
      = (qs.zip ans).countP (fun p => p.2 == some p.1.correctAnswer) := by
  induction qs generalizing ans with
  | nil => simp [countCorrect]
  | cons q qs ih =>
    cases ans with
    | nil => simp [countCorrect, countCorrect_nil]
    | cons a as =>
      simp only [countCorrect, List.zip_cons_cons, List.countP_cons, ih]
      by_cases h : a = some q.correctAnswer <;> simp [h, Nat.add_comm]

/-- C6: for every completed aptitude quiz with at least one question,
`correctAnswers` is the number of indices where the user's answer exactly
matches the question's `correctAnswer`, `incorrectAnswers` is the number of
questions minus `correctAnswers`, `total` is the question count, and
`score` is `correctAnswers / total * 100`. -/
theorem C6_calculateResult (questions : List AptitudeQuestion)
    (ans : List (Option String)) (times : List ℚ) (topic difficulty qt : String)
    (_hn : 1 ≤ questions.length) :
    (calculateResult questions ans times topic difficulty qt).correctAnswers
        = (questions.zip ans).countP (fun p => p.2 == some p.1.correctAnswer) ∧
    (calculateResult questions ans times topic difficulty qt).incorrectAnswers
        = questions.length
          - (calculateResult questions ans times topic difficulty qt).correctAnswers ∧
    (calculateResult questions ans times topic difficulty qt).total = questions.length ∧
    (calculateResult questions ans times topic difficulty qt).score
        = ((calculateResult questions ans times topic difficulty qt).correctAnswers : ℚ)
          / questions.length * 100 := by
  refine ⟨?_, rfl, rfl, rfl⟩
  simpa [calculateResult] using countCorrect_eq_countP questions ans

/-- C6 witness: a 5-question quiz with 3 exact matches yields score 60,
3 correct, 2 incorrect. -/
theorem C6_calculateResult_witness :
    (calculateResult demoQuestions demoAnswers [] "Mixed Topics" "Medium" "Practice").score
        = 60 ∧
    (calculateResult demoQuestions demoAnswers [] "Mixed Topics" "Medium" "Practice").correctAnswers
        = 3 ∧
    (calculateResult demoQuestions demoAnswers [] "Mixed Topics" "Medium"
        "Practice").incorrectAnswers = 2 := by
  obtain ⟨hc, hi, ht, hs⟩ :=
    C6_calculateResult demoQuestions demoAnswers [] "Mixed Topics" "Medium" "Practice"
      (by decide)
  have hcount :
      (demoQuestions.zip demoAnswers).countP (fun p => p.2 == some p.1.correctAnswer) = 3 := by
    decide
  rw [hcount] at hc
  refine ⟨?_, hc, ?_⟩
  · rw [hs, hc]
    norm_num [demoQuestions, mockQ]
  · rw [hi, hc]
    decide

/-- C5: saving an in-progress quiz snapshot and then resuming it restores
exactly the same questions, the same answer list, the same current question
index and the same remaining time; only the per-question timing baseline
(`questionStartTime`) is recomputed to the moment of resumption, and the
component re-enters the active flow. -/
theorem C5_resume_roundtrip (s s₂ : QuizComponentState) (now₁ now₂ : ℚ)
    (snap : SavedQuizState) (hsave : saveQuizProgress s now₁ = some snap)
    (hload : s₂.savedQuizState = some snap) :
    (handleResumeQuiz s₂ now₂).questions = s.questions ∧
    (handleResumeQuiz s₂ now₂).userAnswers = s.userAnswers ∧
    (handleResumeQuiz s₂ now₂).currentQuestionIndex = s.currentQuestionIndex ∧
    (handleResumeQuiz s₂ now₂).timeLeft = s.timeLeft ∧
    (handleResumeQuiz s₂ now₂).questionStartTime = now₂ ∧
    (handleResumeQuiz s₂ now₂).flow = QuizFlow.active := by
  unfold saveQuizProgress at hsave
  split at hsave
  · rw [Option.some.injEq] at hsave
    subst hsave
    simp [handleResumeQuiz, hload]
  · exact absurd hsave (by simp)

/-- C5 witness: the concrete round trip on `demoQuizState`. -/
theorem C5_resume_roundtrip_witness :
    (handleResumeQuiz demoFreshState 5000).questions = demoQuizState.questions ∧
    (handleResumeQuiz demoFreshState 5000).userAnswers = demoQuizState.userAnswers ∧
    (handleResumeQuiz demoFreshState 5000).currentQuestionIndex
      = demoQuizState.currentQuestionIndex ∧
    (handleResumeQuiz demoFreshState 5000).timeLeft = demoQuizState.timeLeft ∧
    (handleResumeQuiz demoFreshState 5000).questionStartTime = 5000 ∧
    (handleResumeQuiz demoFreshState 5000).flow = QuizFlow.active :=
  C5_resume_roundtrip demoQuizState demoFreshState 3000 5000 demoSnap
    (by norm_num [saveQuizProgress, demoQuizState, demoSnap, mockQ]) rfl

/-- C8 counterexample: it is not the case that every AI-response-parsing
operation returns a safe default on a JSON-parse failure —
`generateAptitudeQuestions` re-throws instead of returning a value. -/
theorem C8_counterexample :
    ¬ (∀ r : AIResponse (List AptitudeQuestion),
        ∃ v, generateAptitudeQuestionsParse r = Except.ok v) := by
  intro hclaim
  obtain ⟨v, hv⟩ := hclaim (.invalid "not json")
  simp [generateAptitudeQuestionsParse] at hv

/-- C8 amended: on a JSON-parse failure, `getHrInterviewFeedback`
substitutes one placeholder feedback string per Q&A pair and
`extractTopicFromGoal` falls back to the Quantitative Aptitude topic, but
`generateAptitudeQuestions` and `parseUserGoal` re-throw a descriptive
error to their caller instead of returning a safe default. -/
theorem C8_parse_failures (raw : String) (conversation : List (String × String)) :
    getHrInterviewFeedbackParse conversation (.invalid raw)
        = conversation.map (fun _ => "Sorry, I was unable to generate feedback for this answer.") ∧
    (getHrInterviewFeedbackParse conversation (.invalid raw)).length = conversation.length ∧
    extractTopicFromGoalParse (.invalid raw) = "Quantitative Aptitude" ∧
    generateAptitudeQuestionsParse (.invalid raw)
        = Except.error "Failed to generate aptitude questions. The AI response was not valid JSON." ∧
    parseUserGoalParse (.invalid raw)
        = Except.error "Failed to parse user goal. The AI response was not valid JSON." := by
  refine ⟨rfl, ?_, rfl, rfl, rfl⟩
  simp [getHrInterviewFeedbackParse]

/-- `deactivateIfActiveFor` never changes a document id. -/
theorem deactivateIfActiveFor_id (userId : String) (d : StoredGoal) :
    (deactivateIfActiveFor userId d).id = d.id := by
  unfold deactivateIfActiveFor
  split <;> rfl

/-- After the deactivation pass, no document matches the active-goal query
for that user. -/
theorem deactivateIfActiveFor_not_active (userId : String) (d : StoredGoal) :
    activeGoalQuery userId (deactivateIfActiveFor userId d) = false := by
  unfold deactivateIfActiveFor activeGoalQuery
  by_cases h : (d.goal.userId == userId && d.goal.isActive) = true
  · rw [if_pos h]
    simp
  · rw [if_neg h]
    simpa using h

/-- C4: after `setUserGoal` completes with the new goal marked active and a
fresh document id, exactly one active goal exists for that user; every
previously active goal of that user is now stored with `isActive = false`
under its old id; no goal record is deleted (every old id survives and the
store grows by exactly one record). -/
theorem C4_setGoal_single_active (store : List StoredGoal) (newId : String) (goal : UserGoal)
    (hactive : goal.isActive = true) (hfresh : ∀ d ∈ store, d.id ≠ newId) :
    ((setUserGoal store newId goal).filter (activeGoalQuery goal.userId)).length = 1 ∧
    (∀ d ∈ store, d.goal.userId = goal.userId → d.goal.isActive = true →
      ∃ d' ∈ setUserGoal store newId goal, d'.id = d.id ∧ d'.goal.isActive = false) ∧
    (∀ d ∈ store, ∃ d' ∈ setUserGoal store newId goal, d'.id = d.id) ∧
    (setUserGoal store newId goal).length = store.length + 1 := by
  have hany : ((store.map (deactivateIfActiveFor goal.userId)).any
      (fun d => d.id == newId)) = false := by
    rw [List.any_eq_false]
    intro d' hd'
    obtain ⟨d, hd, rfl⟩ := List.mem_map.mp hd'
    rw [deactivateIfActiveFor_id]
    simpa using hfresh d hd
  have hset : setUserGoal store newId goal
      = store.map (deactivateIfActiveFor goal.userId) ++ [{ id := newId, goal := goal }] := by
    unfold setUserGoal
    simp [hany]
  rw [hset]
  refine ⟨?_, ?_, ?_, ?_⟩
  · rw [List.filter_append]
    have h1 : (store.map (deactivateIfActiveFor goal.userId)).filter
        (activeGoalQuery goal.userId) = [] := by
      rw [List.filter_eq_nil_iff]
      intro d' hd'
      obtain ⟨d, hd, rfl⟩ := List.mem_map.mp hd'
      simp [deactivateIfActiveFor_not_active]
    rw [h1]
    simp [activeGoalQuery, hactive]
  · intro d hd hu ha
    refine ⟨deactivateIfActiveFor goal.userId d,
      List.mem_append_left _ (List.mem_map_of_mem _ hd),
      deactivateIfActiveFor_id _ _, ?_⟩
    unfold deactivateIfActiveFor
    rw [if_pos (by simp [hu, ha])]
  · intro d hd
    exact ⟨deactivateIfActiveFor goal.userId d,
      List.mem_append_left _ (List.mem_map_of_mem _ hd),
      deactivateIfActiveFor_id _ _⟩
  · simp

/-- C4 witness: a store with one active goal for the user and one for
another user; the concrete `setUserGoal` run. -/
theorem C4_setGoal_single_active_witness :
    demoGoal.isActive = true ∧
    ((setUserGoal demoGoalStore "g3" demoGoal).filter (activeGoalQuery "u1")).length = 1 ∧
    (setUserGoal demoGoalStore "g3" demoGoal).length = demoGoalStore.length + 1 := by
  obtain ⟨h1, _, _, h4⟩ :=
    C4_setGoal_single_active demoGoalStore "g3" demoGoal rfl (by decide)
  exact ⟨rfl, h1, h4⟩

/-- C7: for a user with an active goal, `getActiveGoal` returns that goal
with `currentAccuracy` recomputed as the average score of the most recent
(at most) 5 history records matching the goal's topic; if no matching
record exists `currentAccuracy` is left unchanged and nothing is persisted;
the refreshed value is persisted (a merge write on that goal's document
only) exactly when it differs from the stored value. -/
theorem C7_getActiveGoal (goals : List StoredGoal) (userId : String)
    (history : List InterviewHistory) (d : StoredGoal)
    (hq : (goals.filter (activeGoalQuery userId)).head? = some d) :
    (history.filter (topicMatches d.goal.topic) = [] →
      getActiveGoal goals userId history = (some d.goal, goals)) ∧
    (history.filter (topicMatches d.goal.topic) ≠ [] →
      (getActiveGoal goals userId history).1
          = some { d.goal with currentAccuracy :=
              (((history.filter (topicMatches d.goal.topic)).take 5).map
                  (fun h => scoreAsNum h.scoreRating)).sum
                / ((history.filter (topicMatches d.goal.topic)).take 5).length } ∧
      ((((history.filter (topicMatches d.goal.topic)).take 5).map
            (fun h => scoreAsNum h.scoreRating)).sum
          / ((history.filter (topicMatches d.goal.topic)).take 5).length
          = d.goal.currentAccuracy →
        (getActiveGoal goals userId history).2 = goals) ∧
      ((((history.filter (topicMatches d.goal.topic)).take 5).map
            (fun h => scoreAsNum h.scoreRating)).sum
          / ((history.filter (topicMatches d.goal.topic)).take 5).length
          ≠ d.goal.currentAccuracy →
        (getActiveGoal goals userId history).2 = goals.map (fun e =>
          if e.id == d.id then
            { e with goal := { e.goal with currentAccuracy :=
                (((history.filter (topicMatches d.goal.topic)).take 5).map
                    (fun h => scoreAsNum h.scoreRating)).sum
                  / ((history.filter (topicMatches d.goal.topic)).take 5).length } }
          else e))) := by
  have hstep : getActiveGoal goals userId history = refreshActiveGoal goals d history := by
    unfold getActiveGoal
    rw [hq]
  constructor
  · intro hempty
    have hnone : getAverageAccuracyForTopic history d.goal.topic = none := by
      unfold getAverageAccuracyForTopic
      rw [hempty]
      rfl
    rw [hstep]
    unfold refreshActiveGoal
    rw [hnone]
  · intro hne
    have htake : ((history.filter (topicMatches d.goal.topic)).take 5) ≠ [] := by
      rw [Ne, List.take_eq_nil_iff]
      simp [hne]
    have havg : getAverageAccuracyForTopic history d.goal.topic
        = some ((((history.filter (topicMatches d.goal.topic)).take 5).map
            (fun h => scoreAsNum h.scoreRating)).sum
          / ((history.filter (topicMatches d.goal.topic)).take 5).length) := by
      unfold getAverageAccuracyForTopic
      have htake' : ((history.filter (topicMatches d.goal.topic)).take 5).isEmpty = false := by
        cases hcase : (history.filter (topicMatches d.goal.topic)).take 5 with
        | nil => exact absurd hcase htake
        | cons a l => rfl
      rw [htake']
      simp [List.length_map]
    have hred : refreshActiveGoal goals d history
        = (if (((history.filter (topicMatches d.goal.topic)).take 5).map
              (fun h => scoreAsNum h.scoreRating)).sum
            / ((history.filter (topicMatches d.goal.topic)).take 5).length
            ≠ d.goal.currentAccuracy then
             (some { d.goal with currentAccuracy :=
                (((history.filter (topicMatches d.goal.topic)).take 5).map
                    (fun h => scoreAsNum h.scoreRating)).sum
                  / ((history.filter (topicMatches d.goal.topic)).take 5).length },
              goals.map (fun e =>
                if e.id == d.id then
                  { e with goal := { e.goal with currentAccuracy :=
                      (((history.filter (topicMatches d.goal.topic)).take 5).map
                          (fun h => scoreAsNum h.scoreRating)).sum
                        / ((history.filter (topicMatches d.goal.topic)).take 5).length } }
                else e))
           else (some d.goal, goals)) := by
      unfold refreshActiveGoal
      rw [havg]
    rw [hstep, hred]
    by_cases hc :
        (((history.filter (topicMatches d.goal.topic)).take 5).map
            (fun h => scoreAsNum h.scoreRating)).sum
          / ((history.filter (topicMatches d.goal.topic)).take 5).length
          = d.goal.currentAccuracy
    · rw [if_neg (not_not_intro hc)]
      refine ⟨?_, fun _ => rfl, fun hcontra => absurd hc hcontra⟩
      rw [hc]
    · rw [if_pos hc]
      exact ⟨rfl, fun hcontra => absurd hcontra hc, fun _ => rfl⟩

/-- C7 witness: the concrete store and history — the two matching records
(scores 80 and 60) refresh the goal's accuracy from 50 to 70 and the store
is updated at that goal's document. -/
theorem C7_getActiveGoal_witness :
    (getActiveGoal demoGoalStore "u1" demoHistory).1
        = some { targetAccuracy := 70, userId := "u1", topic := "Quantitative Aptitude",
                 initialAccuracy := 50, currentAccuracy := 70, isActive := true } ∧
    (getActiveGoal demoGoalStore "u1" demoHistory).2
        = [{ id := "g1", goal := { demoGoal with targetAccuracy := 70, currentAccuracy := 70 } },
           { id := "g2", goal := { demoGoal with userId := "u2" } }] := by
  obtain ⟨-, h⟩ := C7_getActiveGoal demoGoalStore "u1" demoHistory
    { id := "g1", goal := { demoGoal with targetAccuracy := 70 } } (by decide)
  obtain ⟨h1, -, h3⟩ := h (by decide)
  constructor
  · rw [h1]
    norm_num [demoHistory, demoGoal, topicMatches, scoreAsNum]
  · rw [h3 (by norm_num [demoHistory, demoGoal, topicMatches, scoreAsNum])]
    norm_num [demoHistory, demoGoalStore, demoGoal, topicMatches, scoreAsNum]
    decide

/-- Membership in one conditional badge block. -/
theorem mem_badgeIf {b : String} {c : Prop} [Decidable c] {id : String} :
    b ∈ badgeIf c id ↔ c ∧ b = id := by
  unfold badgeIf
  split <;> simp_all

/-- A badge block is monotone along an implication of its rule. -/
theorem badgeIf_mono {b id : String} {c c' : Prop} [Decidable c] [Decidable c']
    (h : c → c') : b ∈ badgeIf c id → b ∈ badgeIf c' id := by
  rw [mem_badgeIf, mem_badgeIf]
  exact fun hc => ⟨h hc.1, hc.2⟩

/-- A badge block for an id that `b` is not never contains `b`. -/
theorem badgeIf_ne {b id : String} {c c' : Prop} [Decidable c] [Decidable c']
    (hne : b ≠ id) : b ∈ badgeIf c id → b ∈ badgeIf c' id := by
  rw [mem_badgeIf]
  rintro ⟨-, rfl⟩
  exact absurd rfl hne

/-- Lift per-block implications over a concatenation. -/
theorem mem_append_mono {α : Type} {b : α} {l₁ l₂ l₁' l₂' : List α}
    (h₁ : b ∈ l₁ → b ∈ l₁') (h₂ : b ∈ l₂ → b ∈ l₂') :
    b ∈ l₁ ++ l₂ → b ∈ l₁' ++ l₂' := by
  intro h
  rcases List.mem_append.mp h with h | h
  · exact List.mem_append.mpr (Or.inl (h₁ h))
  · exact List.mem_append.mpr (Or.inr (h₂ h))

/-- A filter count never shrinks when records are prepended. -/
theorem length_filter_le_append {α : Type} (extra H : List α) (p : α → Bool) {n : Nat}
    (h : n ≤ (H.filter p).length) : n ≤ ((extra ++ H).filter p).length := by
  rw [List.filter_append, List.length_append]
  omega

/-- An existential over the list survives prepending records. -/
theorem any_append_of_any {α : Type} (extra H : List α) (p : α → Bool)
    (h : H.any p = true) : (extra ++ H).any p = true := by
  rw [List.any_append, h, Bool.or_true]

/-- A nested filter count never shrinks when records are prepended. -/
theorem length_filter_filter_le_append {α : Type} (extra H : List α) (p q : α → Bool)
    {n : Nat} (h : n ≤ ((H.filter p).filter q).length) :
    n ≤ (((extra ++ H).filter p).filter q).length := by
  rw [List.filter_append]
  exact length_filter_le_append _ _ _ h

/-- A nested existential survives prepending records. -/
theorem any_filter_append_of_any {α : Type} (extra H : List α) (p : α → Bool)
    (q : α → Bool) (h : (H.filter p).any q = true) :
    ((extra ++ H).filter p).any q = true := by
  rw [List.filter_append]
  exact any_append_of_any _ _ _ h

/-- C2 counterexample: the badge evaluator's output is NOT monotone under
extending the history with more records of the same kinds (streak and
revision count unchanged).  A Saturday aptitude session earns
`weekend-warrior`; after one more aptitude record, re-evaluation on the
following Tuesday no longer returns it (it survives only because the
persistence layer never deletes badge documents). -/
theorem C2_counterexample :
    ¬ (∀ (H extra : List InterviewHistory) (streak streak' rev rev' : Nat)
        (today today' : Int),
        streak ≤ streak' → rev ≤ rev' →
        (∀ e ∈ extra, ∃ h ∈ H, e.type = h.type) →
        ∀ b ∈ checkAllBadges H streak rev today,
          b ∈ checkAllBadges (extra ++ H) streak' rev' today') := by
  intro hclaim
  have h := hclaim [satRec] [tueRec] 0 0 0 0 2 5 le_rfl le_rfl
    (by
      intro e he
      refine ⟨satRec, by simp, ?_⟩
      simp only [List.mem_singleton] at he
      rw [he]
      rfl)
    "weekend-warrior" (by decide)
  revert h
  decide

/-- C2 amended: for every history `H` extended in front with further
records, and streak / revision counts the same or greater, every badge id
the evaluator returns on `H` other than `weekend-warrior` is also returned
on the extension, at any later evaluation day; only the `weekend-warrior`
rule (which reads the evaluation day and the newest record) can drop out of
the evaluator's output, and the one-way ratchet for it is provided by the
persistence layer, which never deletes badge documents. -/
theorem C2_checkAllBadges_ratchet (H extra : List InterviewHistory)
    (streak streak' rev rev' : Nat) (today today' : Int)
    (hstreak : streak ≤ streak') (hrev : rev ≤ rev')
    (b : String) (hb : b ∈ checkAllBadges H streak rev today)
    (hne : b ≠ "weekend-warrior") :
    b ∈ checkAllBadges (extra ++ H) streak' rev' today' := by
  simp only [checkAllBadges, List.mem_append, mem_badgeIf] at hb ⊢
  rcases hb with (((((((((((((((((⟨h,rfl⟩|⟨h,rfl⟩)|⟨h,rfl⟩)|⟨h,rfl⟩)|⟨h,rfl⟩)|⟨h,rfl⟩)|
    ⟨h,rfl⟩)|⟨h,rfl⟩)|⟨h,rfl⟩)|⟨h,rfl⟩)|⟨h,rfl⟩)|⟨h,rfl⟩)|⟨h,rfl⟩)|⟨h,rfl⟩)|⟨h,rfl⟩)|
    ⟨h,rfl⟩)|⟨h,rfl⟩)|⟨h,rfl⟩)|⟨h,rfl⟩
  · iterate 18 left
    exact ⟨le_trans h hstreak, rfl⟩
  · iterate 17 left
    right
    exact ⟨le_trans h hstreak, rfl⟩
  · exact absurd rfl hne
  · iterate 15 left
    right
    exact ⟨length_filter_le_append extra H _ h, rfl⟩
  · iterate 14 left
    right
    exact ⟨length_filter_le_append extra H _ h, rfl⟩
  · iterate 13 left
    right
    exact ⟨any_filter_append_of_any extra H _ _ h, rfl⟩
  · iterate 12 left
    right
    exact ⟨any_filter_append_of_any extra H _ _ h, rfl⟩
  · iterate 11 left
    right
    exact ⟨any_filter_append_of_any extra H _ _ h, rfl⟩
  · iterate 10 left
    right
    exact ⟨any_filter_append_of_any extra H _ _ h, rfl⟩
  · iterate 9 left
    right
    exact ⟨any_filter_append_of_any extra H _ _ h, rfl⟩
  · iterate 8 left
    right
    exact ⟨length_filter_filter_le_append extra H _ _ h, rfl⟩
  · iterate 7 left
    right
    refine ⟨?_, rfl⟩
    rw [List.filter_append]
    exact any_filter_append_of_any _ _ _ _ h
  · iterate 6 left
    right
    exact ⟨length_filter_le_append extra H _ h, rfl⟩
  · iterate 5 left
    right
    exact ⟨length_filter_le_append extra H _ h, rfl⟩
  · iterate 4 left
    right
    exact ⟨length_filter_le_append extra H _ h, rfl⟩
  · iterate 3 left
    right
    exact ⟨length_filter_le_append extra H _ h, rfl⟩
  · iterate 2 left
    right
    exact ⟨any_append_of_any extra H _ h, rfl⟩
  · left
    right
    exact ⟨le_trans h hrev, rfl⟩
  · right
    refine ⟨?_, rfl⟩
    simp only [Bool.and_eq_true] at h ⊢
    exact ⟨⟨⟨⟨any_append_of_any _ _ _ h.1.1.1.1, any_append_of_any _ _ _ h.1.1.1.2⟩,
      any_append_of_any _ _ _ h.1.1.2⟩, any_append_of_any _ _ _ h.1.2⟩,
      any_append_of_any _ _ _ h.2⟩

/-- C2 witness: ten aptitude records earn `apti-10`; after a further mock
record, a higher streak and more revision questions, re-evaluation on a
later day still returns it. -/
theorem C2_checkAllBadges_ratchet_witness :
    "apti-10" ∈ checkAllBadges (List.replicate 10 satRec) 0 0 3 ∧
    "apti-10" ∈ checkAllBadges ([tueRec] ++ List.replicate 10 satRec) 5 2 9 :=
  ⟨by decide,
    C2_checkAllBadges_ratchet (List.replicate 10 satRec) [tueRec] 0 5 0 2 3 9
      (by decide) (by decide) "apti-10" (by decide) (by decide)⟩

/-- Completing the Aptitude round appends a single Aptitude result. -/
theorem scoreRound_round_zero (s : MockState) (feedbacks : List String)
    (hidx : s.currentRoundIndex = 0) (r : MockRoundResult)
    (hr : r ∈ scoreRound s feedbacks) : isAptitudeResult r = true := by
  rw [scoreRound, hidx] at hr
  simp only [roundAt, interviewStructure, List.getD] at hr
  simp at hr
  rw [hr]
  rfl

/-- The orchestrator invariant holds in every reachable state. -/
theorem mockInv_of_reachable (s : MockState) (h : MockReachable s) : MockInv s := by
  induction h with
  | init duration aptiQuestions hd =>
    constructor
    · intro h1
      simp [startInterview] at h1
    · intro _ r hr
      simp [startInterview] at hr
  | step s e hs he ih =>
    obtain ⟨ih1, ih2⟩ := ih
    cases e with
    | answerAptitude opt => exact ⟨ih1, ih2⟩
    | answerTechnical text => exact ⟨ih1, ih2⟩
    | answerHR text => exact ⟨ih1, ih2⟩
    | tick => exact ⟨ih1, ih2⟩
    | timerExpire => exact ⟨ih1, ih2⟩
    | fetchResolve techQs hrQs =>
      simp only [applyEvent]
      split
      · refine ⟨fun _ => rfl, fun hle r hr => ?_⟩
        dsimp only at hle hr
        exact ih2 (by omega) r hr
      · exact ⟨fun _ => rfl, ih2⟩
    | fetchReject =>
      have hpend : s.fetchState = FetchState.pending := by
        simpa [eventEnabled] using he
      have hidx0 : s.currentRoundIndex = 0 := by
        by_contra hc
        have h1 := ih1 (Nat.pos_of_ne_zero hc)
        rw [hpend] at h1
        cases h1
      simp only [applyEvent]
      split
      · refine ⟨fun h1 => ?_, fun hle r hr => ?_⟩
        · dsimp only at h1
          exact absurd h1 (by omega)
        · dsimp only at hr
          exact ih2 (by omega) r hr
      · refine ⟨fun h1 => ?_, fun hle r hr => ?_⟩
        · dsimp only at h1
          exact absurd h1 (by omega)
        · dsimp only at hr
          exact ih2 (by omega) r hr
    | proceedToNext feedbacks ok =>
      simp only [applyEvent]
      split
      case isFalse => exact ⟨ih1, ih2⟩
      case isTrue hLast =>
        split
        case isFalse => exact ⟨ih1, ih2⟩
        case isTrue hok =>
          split
          case isFalse hge =>
            refine ⟨ih1, fun hle => ?_⟩
            exfalso
            have h3 : interviewStructure.length = 3 := rfl
            rw [h3] at hge
            simp only [finishInterview] at hle
            omega
          case isTrue hlt =>
            have h3 : interviewStructure.length = 3 := rfl
            rw [h3] at hlt
            split
            case isTrue hres =>
              rw [beq_iff_eq] at hres
              refine ⟨fun _ => hres, fun hle r hr => ?_⟩
              dsimp only at hle hr
              have hidx0 : s.currentRoundIndex = 0 := by omega
              rcases List.mem_append.mp hr with hr | hr
              · exact ih2 (by omega) r hr
              · exact scoreRound_round_zero s feedbacks hidx0 r hr
            case isFalse hnres =>
              have hidx0 : s.currentRoundIndex = 0 := by
                by_contra hc
                have h1 := ih1 (Nat.pos_of_ne_zero hc)
                rw [h1] at hnres
                simp at hnres
              split
              case isTrue hpend =>
                refine ⟨fun h1 => ?_, fun hle r hr => ?_⟩
                · dsimp only at h1
                  exact absurd h1 (by omega)
                · dsimp only at hr
                  rcases List.mem_append.mp hr with hr | hr
                  · exact ih2 (by omega) r hr
                  · exact scoreRound_round_zero s feedbacks hidx0 r hr
              case isFalse hnpend =>
                refine ⟨fun h1 => ?_, fun hle r hr => ?_⟩
                · dsimp only at h1
                  exact absurd h1 (by omega)
                · dsimp only at hr
                  rcases List.mem_append.mp hr with hr | hr
                  · exact ih2 (by omega) r hr
                  · exact scoreRound_round_zero s feedbacks hidx0 r hr

/-- From any active reachable state, the interval ticks drive the shared
countdown to zero (the state is otherwise untouched). -/
theorem reachable_timeLeft_zero_aux : ∀ (n : Nat) (s : MockState), s.timeLeft = n →
    MockReachable s → s.flow = MockFlow.active →
    MockReachable { s with timeLeft := 0 } := by
  intro n
  induction n with
  | zero =>
    intro s hn hs _
    have heq : ({ s with timeLeft := 0 } : MockState) = s := by
      cases s
      simp_all
    rw [heq]
    exact hs
  | succ n ih =>
    intro s hn hs hflow
    have he : eventEnabled MockEvent.tick s = true := by
      simp [eventEnabled, hflow, hn]
    have hstep := MockReachable.step s MockEvent.tick hs he
    have h1 : (applyEvent MockEvent.tick s).timeLeft = n := by
      simp [applyEvent, hn]
    have h2 : (applyEvent MockEvent.tick s).flow = MockFlow.active := by
      simpa [applyEvent] using hflow
    have := ih (applyEvent MockEvent.tick s) h1 hstep h2
    have heq : ({ applyEvent MockEvent.tick s with timeLeft := 0 } : MockState)
        = { s with timeLeft := 0 } := by
      cases s
      rfl
    rw [heq] at this
    exact this

theorem reachable_timeLeft_zero (s : MockState) (hs : MockReachable s)
    (hflow : s.flow = MockFlow.active) : MockReachable { s with timeLeft := 0 } :=
  reachable_timeLeft_zero_aux s.timeLeft s rfl hs hflow

/-- A run of events, each enabled when its turn comes, stays within the
reachable states. -/
theorem runEvents_reachable : ∀ (es : List MockEvent) (s : MockState),
    MockReachable s → okEvents es s = true → MockReachable (runEvents es s) := by
  intro es
  induction es with
  | nil => intro s hs _; exact hs
  | cons e es ih =>
    intro s hs hok
    simp only [okEvents, Bool.and_eq_true] at hok
    exact ih (applyEvent e s) (MockReachable.step s e hs hok.1) hok.2

set_option maxRecDepth 40000 in
/-- The concrete mid-Technical run, with its countdown expired, is a
reachable orchestrator state. -/
theorem traceStateZero_reachable : MockReachable traceStateZero :=
  reachable_timeLeft_zero traceState
    (runEvents_reachable traceEvents (startInterview 45 (List.replicate 30 mockQ))
      (MockReachable.init 45 (List.replicate 30 mockQ) (by decide)) (by decide))
    (by decide)

set_option maxRecDepth 40000 in
/-- C3 counterexample: it is NOT the case that when the global timer
reaches zero during the Technical round the finalized result list contains
the partial Technical answers given so far (together with the Aptitude
result and no HR data): in a concrete run with one partial Technical answer
typed, timer expiry finalizes with only the Aptitude result — partial
answers from the round in progress are never part of `roundResults`. -/
theorem C3_counterexample :
    ¬ (∀ s : MockState, MockReachable s → s.flow = MockFlow.active →
        s.currentRoundIndex = 1 → s.timeLeft = 0 →
        (∃ r ∈ (applyEvent MockEvent.timerExpire s).finalResults,
          isAptitudeResult r = true) ∧
        (∀ i, i < s.technicalQuestions.length →
          s.technicalAnswers.getD i "" ≠ "" →
          ∃ f, MockRoundResult.technicalResult (s.technicalQuestions.getD i "")
            (s.technicalAnswers.getD i "") f
              ∈ (applyEvent MockEvent.timerExpire s).finalResults) ∧
        (∀ r ∈ (applyEvent MockEvent.timerExpire s).finalResults,
          isHrResult r = false)) := by
  intro hclaim
  obtain ⟨-, htech, -⟩ := hclaim traceStateZero traceStateZero_reachable
    (by decide) (by decide) rfl
  obtain ⟨f, hf⟩ := htech 0 (by decide) (by decide)
  have hfr : (applyEvent MockEvent.timerExpire traceStateZero).finalResults
      = traceStateZero.roundResults := rfl
  rw [hfr] at hf
  have hapt := (mockInv_of_reachable traceStateZero traceStateZero_reachable).2
    (by decide) _ hf
  simp [isAptitudeResult] at hapt

/-- C3 amended: for every reachable state in which the global countdown has
reached zero while the Technical round is in progress, the timer-expiry
effect is enabled and immediately finalizes: the orchestrator enters the
results flow and the finalized list is exactly the accumulated
`roundResults`, which consist of Aptitude results only — the partial
Technical answers given so far are NOT included, and no HR round data is
present. -/
theorem C3_timer_expiry_mid_technical (s : MockState) (h : MockReachable s)
    (hflow : s.flow = MockFlow.active) (hround : s.currentRoundIndex = 1)
    (htime : s.timeLeft = 0) :
    eventEnabled MockEvent.timerExpire s = true ∧
    (applyEvent MockEvent.timerExpire s).flow = MockFlow.results ∧
    (applyEvent MockEvent.timerExpire s).finalResults = s.roundResults ∧
    (∀ r ∈ (applyEvent MockEvent.timerExpire s).finalResults,
      isAptitudeResult r = true) ∧
    (∀ r ∈ (applyEvent MockEvent.timerExpire s).finalResults, isHrResult r = false) := by
  obtain ⟨-, hinv2⟩ := mockInv_of_reachable s h
  have hapt : ∀ r ∈ s.roundResults, isAptitudeResult r = true :=
    hinv2 (by omega)
  refine ⟨by simp [eventEnabled, hflow, htime], rfl, rfl, hapt, fun r hr => ?_⟩
  have := hapt r hr
  cases r with
  | aptitudeResult score total correctAnswers => rfl
  | technicalResult q a f => cases this
  | hrResult q a f => cases this

set_option maxRecDepth 40000 in
/-- C3 witness: the concrete expired mid-Technical run finalizes into the
results flow with finalResults = the Aptitude result only. -/
theorem C3_timer_expiry_mid_technical_witness :
    (applyEvent MockEvent.timerExpire traceStateZero).flow = MockFlow.results ∧
    (applyEvent MockEvent.timerExpire traceStateZero).finalResults
      = traceStateZero.roundResults ∧
    (∀ r ∈ (applyEvent MockEvent.timerExpire traceStateZero).finalResults,
      isAptitudeResult r = true) :=
  have h := C3_timer_expiry_mid_technical traceStateZero traceStateZero_reachable
    (by decide) (by decide) rfl
  ⟨h.2.1, h.2.2.1, h.2.2.2.1⟩

/-- C9: when completing the current round's last question fails — the
scoring/feedback call throws (`callsSucceed = false`), or the awaited
background fetch has rejected — the transition is aborted with the
user-visible round error message, and the orchestrator remains in the
current round: `currentRoundIndex` and the flow are unchanged. -/
theorem C9_error_keeps_round (s : MockState) (feedbacks : List String)
    (hLast : s.currentQuestionIndex
      = roundQuestionCount (roundAt s.currentRoundIndex) - 1) :
    ((applyEvent (MockEvent.proceedToNext feedbacks false) s).currentRoundIndex
        = s.currentRoundIndex ∧
     (applyEvent (MockEvent.proceedToNext feedbacks false) s).flow = s.flow ∧
     (applyEvent (MockEvent.proceedToNext feedbacks false) s).error
        = some (errMessage (roundAt s.currentRoundIndex))) ∧
    (s.fetchState = FetchState.rejected →
      s.currentRoundIndex < interviewStructure.length - 1 →
      (applyEvent (MockEvent.proceedToNext feedbacks true) s).currentRoundIndex
          = s.currentRoundIndex ∧
      (applyEvent (MockEvent.proceedToNext feedbacks true) s).flow = s.flow ∧
      (applyEvent (MockEvent.proceedToNext feedbacks true) s).error
          = some (errMessage (roundAt s.currentRoundIndex))) := by
  constructor
  · simp [applyEvent, hLast]
  · intro hrej hlt
    simp [applyEvent, hLast, hrej, hlt]

/-- C9 witness: on the last Technical question, a failing feedback call
leaves the orchestrator in the Technical round with the error surfaced. -/
theorem C9_error_keeps_round_witness :
    (applyEvent (MockEvent.proceedToNext [] false) demoErrorState).currentRoundIndex = 1 ∧
    (applyEvent (MockEvent.proceedToNext [] false) demoErrorState).flow = MockFlow.active ∧
    (applyEvent (MockEvent.proceedToNext [] false) demoErrorState).error
      = some (errMessage MockRound.Technical) :=
  have h := (C9_error_keeps_round demoErrorState [] (by decide)).1
  ⟨h.1, h.2.1, h.2.2⟩

end PrepHub
